import Mathlib

/-!
Verification development for the temp_server repository (FindMyRepo API).

The definitions below are a shallow embedding of the three source files
src/main.py, src/weaviate_service.py and src/gemini_service.py: pure
fragments become Lean functions, the two HTTP handlers become functions
from their parameters (plus an explicit backend oracle) to a result, and
raised HTTP exceptions become the error side of an Except value.
-/

namespace FindMyRepo

/- ## Python string primitives used by the formatting code -/

/-- Whitespace test of Python str.strip, modelled by Char.isWhitespace. -/
def isWS (c : Char) : Bool := c.isWhitespace

/-- Python s.strip() on the underlying character list: drop leading
whitespace, then drop trailing whitespace. -/
def pyStripList (l : List Char) : List Char :=
  ((l.dropWhile isWS).reverse.dropWhile isWS).reverse

/-- Python s.strip(). -/
def pyStrip (s : String) : String := ⟨pyStripList s.data⟩

/-- Python s.split(",") on the underlying character list.  As in Python,
the empty list splits to one empty group, and separators at the ends
produce empty groups. -/
def splitCSVList : List Char → List (List Char)
  | [] => [[]]
  | c :: rest =>
    if c = ',' then [] :: splitCSVList rest
    else
      match splitCSVList rest with
      | [] => [[c]]
      | g :: gs => (c :: g) :: gs

/-- Python s.split(","). -/
def pySplit (s : String) : List String := (splitCSVList s.data).map (fun l => ⟨l⟩)

/-- Python s.lower(): lower-case every character (Char.toLower applied
through the underlying character list). -/
def pyLower (s : String) : String := ⟨s.data.map Char.toLower⟩

/-- Source: weaviate_service.py lines 43-51 and main.py lines 388-395
(identical code on the search-normalization and browse-formatting paths).
An absent property bag entry is modelled as none; the guard models the
Python truthiness test on the raw field, and the comprehension
[t.strip() for t in s.split(",") if t.strip()] becomes a filterMap. -/
def formatDelimited (o : Option String) : List String :=
  match o with
  | none => []
  | some s =>
    if s == "" then []
    else (pySplit s).filterMap (fun t => if pyStrip t == "" then none else some (pyStrip t))

/-- Python round(x, 4), modelled over exact rationals with integer
rounding to the nearest multiple of 1/10000. -/
def round4 (q : ℚ) : ℚ := ((round (q * 10000) : ℤ) : ℚ) / 10000

/- ## The data model -/

/-- A raw backend record (the properties dict of one Weaviate object).
A field that the backend did not return is none. -/
structure Props where
  name : Option String := none
  full_name : Option String := none
  description : Option String := none
  url : Option String := none
  homepage : Option String := none
  language : Option String := none
  languages : Option String := none
  topics : Option String := none
  stars : Option Int := none
  forks : Option Int := none
  open_issues : Option Int := none
  license : Option String := none
  has_issues : Option Bool := none
  has_wiki : Option Bool := none
  created_at : Option String := none
  updated_at : Option String := none
deriving DecidableEq

/-- The optional match metadata of one Weaviate object (obj.metadata).
A slot that is missing or None is modelled as none. -/
structure MetadataM where
  distance : Option ℚ := none
  score : Option ℚ := none
deriving DecidableEq

/-- The canonical repository entity returned to callers (the Repository
pydantic model of main.py lines 31-49). -/
structure Repository where
  name : String := ""
  full_name : String := ""
  description : String := ""
  url : String := ""
  homepage : String := ""
  language : String := ""
  languages : List String := []
  topics : List String := []
  stars : Int := 0
  forks : Int := 0
  open_issues : Int := 0
  license : String := ""
  has_issues : Bool := false
  has_wiki : Bool := false
  created_at : String := ""
  updated_at : String := ""
  distance : Option ℚ := none
  score : Option ℚ := none
deriving DecidableEq

/- ## Result Normalizer, search path (weaviate_service.py lines 41-78) -/

/-- One formatted result item of WeaviateService.execute_search_code:
props.get(key, default) becomes Option.getD, and the
distance / elif score attachment becomes a match on the distance slot. -/
def formatRepoSearch (props : Props) (meta : MetadataM) : Repository :=
  { name := props.name.getD ""
    full_name := props.full_name.getD ""
    description := props.description.getD ""
    url := props.url.getD ""
    homepage := props.homepage.getD ""
    language := props.language.getD ""
    languages := formatDelimited props.languages
    topics := formatDelimited props.topics
    stars := props.stars.getD 0
    forks := props.forks.getD 0
    open_issues := props.open_issues.getD 0
    license := props.license.getD ""
    has_issues := props.has_issues.getD false
    has_wiki := props.has_wiki.getD false
    created_at := props.created_at.getD ""
    updated_at := props.updated_at.getD ""
    distance := meta.distance.map round4
    score := match meta.distance with
      | some _ => none
      | none => meta.score.map round4 }

/- ## Result Normalizer, browse path (main.py lines 384-415 and 524-556) -/

/-- Python x or d for an optional string field: None and the empty
string are falsy. -/
def pyOrStr (o : Option String) (d : String) : String :=
  match o with
  | none => d
  | some s => if s == "" then d else s

/-- Python x or d for an optional integer field: None and 0 are falsy. -/
def pyOrInt (o : Option Int) (d : Int) : Int :=
  match o with
  | none => d
  | some n => if n == 0 then d else n

/-- Python x or d for an optional boolean field: None and False are falsy. -/
def pyOrBool (o : Option Bool) (d : Bool) : Bool :=
  match o with
  | none => d
  | some b => if b then b else d

/-- One formatted Repository of the browse endpoints (main.py lines
397-414, identical in get_hidden_gems): props.get(key) or default.
Browse results carry no match metadata. -/
def formatRepoBrowse (props : Props) : Repository :=
  { name := pyOrStr props.name ""
    full_name := pyOrStr props.full_name ""
    description := pyOrStr props.description ""
    url := pyOrStr props.url ""
    homepage := pyOrStr props.homepage ""
    language := pyOrStr props.language ""
    languages := formatDelimited props.languages
    topics := formatDelimited props.topics
    stars := pyOrInt props.stars 0
    forks := pyOrInt props.forks 0
    open_issues := pyOrInt props.open_issues 0
    license := pyOrStr props.license ""
    has_issues := pyOrBool props.has_issues false
    has_wiki := pyOrBool props.has_wiki false
    created_at := pyOrStr props.created_at ""
    updated_at := pyOrStr props.updated_at ""
    distance := none
    score := none }

/- ## Filter Predicate model (the weaviate Filter objects built by main.py) -/

/-- One atomic comparison (Filter.by_property(prop).op(value)). -/
inductive FilterAtom where
  | equalStr (prop : String) (v : String)
  | equalBool (prop : String) (v : Bool)
  | greater_or_equal (prop : String) (v : Int)
  | less_or_equal (prop : String) (v : Int)
  | contains_any (prop : String) (vs : List String)
  | like (prop : String) (pattern : String)
deriving DecidableEq

/-- A filter tree: atoms combined with the binary operators of the
weaviate client, filter1 AND filter2 and filter1 OR filter2. -/
inductive FilterExpr where
  | atom (a : FilterAtom)
  | and (l r : FilterExpr)
  | or (l r : FilterExpr)
deriving DecidableEq

/-- True when the tree contains no OR node. -/
def orFree : FilterExpr → Bool
  | .atom _ => true
  | .and l r => orFree l && orFree r
  | .or _ _ => false

/-- The atoms of the tree, left to right. -/
def atomsOf : FilterExpr → List FilterAtom
  | .atom a => [a]
  | .and l r => atomsOf l ++ atomsOf r
  | .or l r => atomsOf l ++ atomsOf r

/-- Boolean evaluation of a filter tree under a valuation of the atoms
(the backend decides each atomic comparison). -/
def evalF (env : FilterAtom → Bool) : FilterExpr → Bool
  | .atom a => env a
  | .and l r => evalF env l && evalF env r
  | .or l r => evalF env l || evalF env r

/-- Evaluation of an optional filter: no filter accepts everything. -/
def evalOptF (env : FilterAtom → Bool) : Option FilterExpr → Bool
  | none => true
  | some f => evalF env f

/-- Source: main.py lines 337-342.  The imperative loop
combined_filter = conditions[0]; for c in conditions[1:]:
combined_filter = combined_filter AND c, with None when the list is
empty, becomes a left fold. -/
def combineList (l : List FilterAtom) : Option FilterExpr :=
  match l with
  | [] => none
  | a :: rest => some (rest.foldl (fun acc c => FilterExpr.and acc (.atom c)) (.atom a))

/- ## Filter Compiler (main.py lines 239-342) -/

/-- The optional browse filter parameters of the /allrepos endpoint
(main.py lines 202-217).  A query parameter that was not supplied is
none. -/
structure FilterParams where
  language : Option String := none
  languages : Option String := none
  topics : Option String := none
  min_stars : Option Int := none
  max_stars : Option Int := none
  min_forks : Option Int := none
  max_forks : Option Int := none
  license : Option String := none
  has_issues : Option Bool := none
  has_wiki : Option Bool := none
  is_underrated : Option Bool := none
  is_gsoc : Option Bool := none
  is_hacktoberfest : Option Bool := none
  has_good_first_issues : Option Bool := none
  name_contains : Option String := none
  description_contains : Option String := none
deriving DecidableEq

/-- Source: main.py lines 240-241.  Parses a comma-separated parameter:
[x.strip().lower() for x in s.split(",")] if s else None, so both an
absent parameter and the empty string give None. -/
def parseCSVLower (o : Option String) : Option (List String) :=
  match o with
  | none => none
  | some s =>
    if s == "" then none
    else some ((pySplit s).map (fun t => pyLower (pyStrip t)))

/-- One "if param: filter_conditions.append(mk(param))" statement for a
string parameter, whose Python truthiness test rejects None and the
empty string. -/
def strSeg (o : Option String) (mk : String → FilterAtom) : List FilterAtom :=
  match o with
  | none => []
  | some s => if s == "" then [] else [mk s]

/-- One "if parsed_list: filter_conditions.append(mk(parsed_list))"
statement: the truthiness test rejects None and the empty list. -/
def csvSeg (o : Option (List String)) (mk : List String → FilterAtom) : List FilterAtom :=
  match o with
  | none => []
  | some ls => if ls == [] then [] else [mk ls]

/-- One "if param is not None: filter_conditions.append(mk(param))"
statement for a numeric or boolean parameter. -/
def optSeg {α : Type} (o : Option α) (mk : α → FilterAtom) : List FilterAtom :=
  match o with
  | none => []
  | some v => [mk v]

/-- Source: main.py lines 288-335.  The successive
"if param: filter_conditions.append(...)" statements, in source order,
rendered as a concatenation of conditional singleton lists.  String
parameters are tested for Python truthiness (non-None and non-empty),
numeric and boolean parameters with "is not None"; the languages and
topics conditions test truthiness of the parsed list. -/
def filter_conditions (fp : FilterParams) : List FilterAtom :=
  strSeg fp.language (fun l => .equalStr "language" (pyLower l)) ++
  csvSeg (parseCSVLower fp.languages) (fun ls => .contains_any "languages" ls) ++
  csvSeg (parseCSVLower fp.topics) (fun ts => .contains_any "topics" ts) ++
  optSeg fp.min_stars (fun n => .greater_or_equal "stars" n) ++
  optSeg fp.max_stars (fun n => .less_or_equal "stars" n) ++
  optSeg fp.min_forks (fun n => .greater_or_equal "forks" n) ++
  optSeg fp.max_forks (fun n => .less_or_equal "forks" n) ++
  strSeg fp.license (fun l => .equalStr "license" l) ++
  optSeg fp.has_issues (fun b => .equalBool "has_issues" b) ++
  optSeg fp.has_wiki (fun b => .equalBool "has_wiki" b) ++
  optSeg fp.is_underrated (fun b => .equalBool "is_underrated" b) ++
  optSeg fp.is_gsoc (fun b => .equalBool "is_gsoc" b) ++
  optSeg fp.is_hacktoberfest (fun b => .equalBool "is_hacktoberfest" b) ++
  optSeg fp.has_good_first_issues (fun b => .equalBool "has_good_first_issues" b) ++
  strSeg fp.name_contains (fun t => .like "name" ("*" ++ pyLower t ++ "*")) ++
  strSeg fp.description_contains (fun t => .like "description" ("*" ++ pyLower t ++ "*"))

/-- The compiled browse filter (main.py lines 337-342). -/
def combined_filter (fp : FilterParams) : Option FilterExpr :=
  combineList (filter_conditions fp)

/- ## Claim-side presence and spec-worded compiler (spec section 4.4) -/

/-- A string browse parameter counts as present when it was supplied
and non-empty (an empty query-string value carries no filter text). -/
def strPresent (o : Option String) : Bool := o.getD "" != ""

/-- The tokens the compiler derives from a comma-separated parameter. -/
def csvTokens (o : Option String) : List String :=
  (pySplit (o.getD "")).map (fun t => pyLower (pyStrip t))

/-- Number of present browse filter parameters. -/
def presentCount (fp : FilterParams) : Nat :=
  (if strPresent fp.language then 1 else 0) +
  (if strPresent fp.languages then 1 else 0) +
  (if strPresent fp.topics then 1 else 0) +
  (if fp.min_stars.isSome then 1 else 0) +
  (if fp.max_stars.isSome then 1 else 0) +
  (if fp.min_forks.isSome then 1 else 0) +
  (if fp.max_forks.isSome then 1 else 0) +
  (if strPresent fp.license then 1 else 0) +
  (if fp.has_issues.isSome then 1 else 0) +
  (if fp.has_wiki.isSome then 1 else 0) +
  (if fp.is_underrated.isSome then 1 else 0) +
  (if fp.is_gsoc.isSome then 1 else 0) +
  (if fp.is_hacktoberfest.isSome then 1 else 0) +
  (if fp.has_good_first_issues.isSome then 1 else 0) +
  (if strPresent fp.name_contains then 1 else 0) +
  (if strPresent fp.description_contains then 1 else 0)

/-- Modelled from the spec wording of section 4.4: each present
parameter contributes exactly one atomic comparison; languages and
topics compile to contains_any; the free-text containment parameters
compile to a wildcard like on the lower-cased pattern; every other
present parameter compiles to equal / greater_or_equal / less_or_equal
as typed.  Used only to compare with filter_conditions. -/
def specFilterAtoms (fp : FilterParams) : List FilterAtom :=
  (if strPresent fp.language then [.equalStr "language" (pyLower (fp.language.getD ""))] else []) ++
  (if strPresent fp.languages then [.contains_any "languages" (csvTokens fp.languages)] else []) ++
  (if strPresent fp.topics then [.contains_any "topics" (csvTokens fp.topics)] else []) ++
  optSeg fp.min_stars (fun n => .greater_or_equal "stars" n) ++
  optSeg fp.max_stars (fun n => .less_or_equal "stars" n) ++
  optSeg fp.min_forks (fun n => .greater_or_equal "forks" n) ++
  optSeg fp.max_forks (fun n => .less_or_equal "forks" n) ++
  (if strPresent fp.license then [.equalStr "license" (fp.license.getD "")] else []) ++
  optSeg fp.has_issues (fun b => .equalBool "has_issues" b) ++
  optSeg fp.has_wiki (fun b => .equalBool "has_wiki" b) ++
  optSeg fp.is_underrated (fun b => .equalBool "is_underrated" b) ++
  optSeg fp.is_gsoc (fun b => .equalBool "is_gsoc" b) ++
  optSeg fp.is_hacktoberfest (fun b => .equalBool "is_hacktoberfest" b) ++
  optSeg fp.has_good_first_issues (fun b => .equalBool "has_good_first_issues" b) ++
  (if strPresent fp.name_contains then [.like "name" ("*" ++ pyLower (fp.name_contains.getD "") ++ "*")] else []) ++
  (if strPresent fp.description_contains then [.like "description" ("*" ++ pyLower (fp.description_contains.getD "") ++ "*")] else [])

/- ## Pagination Engine (main.py lines 280-281, 355-358, 418-429) -/

/-- Ceiling division, modelling math.ceil(a / b) for nonnegative
operands (the float detour of the Python expression is modelled as
exact ceiling division). -/
def ceilDiv (a b : Nat) : Nat := (a + b - 1) / b

/-- The pagination dict of main.py lines 418-429 (identical in
get_hidden_gems at lines 559-570). -/
structure PaginationInfo where
  current_page : Nat
  per_page : Nat
  total_items : Nat
  total_pages : Nat
  has_next : Bool
  has_previous : Bool
  next_page : Option Nat
  previous_page : Option Nat
  sort_by : String
  sort_order : String
deriving DecidableEq

/-- Source: main.py line 281, offset = (page - 1) * limit. -/
def offsetOf (page limit : Nat) : Nat := (page - 1) * limit

/-- Source: main.py lines 355-358 and 418-429.
total_pages = math.ceil(total_count / limit) if total_count > 0 else 1,
has_next = page < total_pages, has_prev = page > 1, and the
next_page / previous_page fields are the conditional expressions of the
pagination dict. -/
def buildPagination (page limit total_count : Nat) (sort_by sort_order : String) :
    PaginationInfo :=
  let total_pages := if 0 < total_count then ceilDiv total_count limit else 1
  let has_next := decide (page < total_pages)
  let has_prev := decide (1 < page)
  { current_page := page
    per_page := limit
    total_items := total_count
    total_pages := total_pages
    has_next := has_next
    has_previous := has_prev
    next_page := if has_next then some (page + 1) else none
    previous_page := if has_prev then some (page - 1) else none
    sort_by := sort_by
    sort_order := sort_order }

/- ## HTTP-level result shapes -/

/-- A raised fastapi HTTPException (status code and detail). -/
structure HTTPError where
  status : Nat
  detail : String
deriving DecidableEq

/-- The SearchResponse pydantic model (main.py lines 56-62). -/
structure SearchResponse where
  success : Bool
  query : String
  results_count : Nat
  results : List Repository
  error : Option String := none
  generated_code : Option String := none
deriving DecidableEq

/-- The PaginatedResponse pydantic model (main.py lines 70-75); the
filters_applied echo dict is not modelled, no claim concerns it. -/
structure PaginatedResponse where
  success : Bool
  data : List Repository
  pagination : Option PaginationInfo := none
  error : Option String := none
deriving DecidableEq

/- ## Execution Sandbox (weaviate_service.py lines 18-80) -/

/-- What the executed snippet left in the results slot: the slot still
empty (None or falsy), a value without an objects attribute, or a
response object carrying a list of raw records with metadata. -/
inductive SlotValue where
  | emptySlot
  | lacksObjects
  | withObjects (objs : List (Props × MetadataM))

/-- Outcome of evaluating a snippet: it ran and left a slot value, or
it raised with a message. -/
inductive ExecOutcome where
  | ran (slot : SlotValue)
  | raised (msg : String)

/-- Outcome of the generation collaborator (gemini_service): a snippet,
or a raised failure message. -/
inductive GenOutcome where
  | made (code : String)
  | failed (msg : String)

/-- Source: weaviate_service.py lines 34-80.  After running the
snippet, a falsy slot or a slot without objects gives [], otherwise
every object is formatted by the search-path Result Normalizer. -/
def execute_search_code (slot : SlotValue) : List Repository :=
  match slot with
  | .emptySlot => []
  | .lacksObjects => []
  | .withObjects objs => objs.map (fun pm => formatRepoSearch pm.1 pm.2)

/-- The dict returned by WeaviateService.search (weaviate_service.py
lines 82-103). -/
structure WSearchResult where
  success : Bool
  query : String
  results_count : Nat
  results : List Repository
  error : Option String := none
  generated_code : Option String := none
deriving DecidableEq

/-- Source: weaviate_service.py lines 82-103.  Runs the snippet; an
exception during evaluation is caught here and turned into a
success=false dict that retains the snippet text. -/
def weaviateSearch (query code : String) (ex : String → ExecOutcome) : WSearchResult :=
  match ex code with
  | .raised msg =>
    { success := false, query := query, results_count := 0, results := []
      error := some msg, generated_code := some code }
  | .ran slot =>
    let rs := execute_search_code slot
    { success := true, query := query, results_count := rs.length, results := rs
      generated_code := some code }

/-- Python "if request.limit and len(results) > request.limit:
results = results[:request.limit]" (main.py lines 170-172). -/
def applyLimit (limit : Option Nat) (rs : List Repository) : List Repository :=
  match limit with
  | none => rs
  | some l => if l ≠ 0 ∧ l < rs.length then rs.take l else rs

/-- Source: main.py lines 116-193, the /search endpoint.  A failure of
the generation step is re-raised as an HTTPException 500 (lines
140-145); the weaviate step never raises (its search method catches
internally), and a success=false dict is returned as a structured
SearchResponse (lines 159-167); otherwise the limit is applied and a
success response built (lines 169-183). -/
def search_repositories (query : String) (limit : Option Nat)
    (gen : GenOutcome) (ex : String → ExecOutcome) :
    Except HTTPError SearchResponse :=
  match gen with
  | .failed msg => .error ⟨500, "Failed to generate search code: " ++ msg⟩
  | .made code =>
    let sr := weaviateSearch query code ex
    if sr.success = false then
      .ok { success := false, query := query, results_count := 0, results := []
            error := some (sr.error.getD "Unknown error occurred")
            generated_code := sr.generated_code }
    else
      let rs := applyLimit limit sr.results
      .ok { success := true, query := query, results_count := rs.length, results := rs
            generated_code := sr.generated_code }

/- ## Browse endpoints with an instrumented backend -/

/-- One backend round-trip issued by a browse endpoint. -/
inductive BackendCall where
  | countCall (f : Option FilterExpr)
  | fetchCall (f : Option FilterExpr) (limit offset : Nat)
deriving DecidableEq

/-- The backend oracle: the aggregate count query and the windowed
fetch (filters, limit, offset, sort field, ascending). -/
structure Backend where
  countFn : Option FilterExpr → Nat
  fetchFn : Option FilterExpr → Nat → Nat → String → Bool → List Props

/-- The sort_by enumeration of both browse endpoints. -/
def sortFields : List String := ["stars", "forks", "updated_at", "created_at", "name"]

/-- The sort_order enumeration of both browse endpoints. -/
def sortOrders : List String := ["asc", "desc"]

/-- Source: main.py lines 195-451, the /allrepos endpoint.  Parameter
validation (lines 233-237) raises 400 before anything touches the
backend; then offset, compiled filter, count query, pagination data,
windowed fetch and formatting.  The second component is the trace of
backend calls, in order. -/
def get_all_repositories (b : Backend) (page limit : Nat)
    (sort_by sort_order : String) (fp : FilterParams) :
    Except HTTPError PaginatedResponse × List BackendCall :=
  if sort_by ∉ sortFields then
    (.error ⟨400, "Invalid sort_by field"⟩, [])
  else if sort_order ∉ sortOrders then
    (.error ⟨400, "Sort order must be asc or desc"⟩, [])
  else
    let offset := offsetOf page limit
    let cf := combined_filter fp
    let total_count := b.countFn cf
    let pagination := buildPagination page limit total_count sort_by sort_order
    let objs := b.fetchFn cf limit offset sort_by (sort_order == "asc")
    let data := objs.map formatRepoBrowse
    (.ok { success := true, data := data, pagination := some pagination },
     [.countCall cf, .fetchCall cf limit offset])

/-- Source: main.py lines 453-590, the /hiddengem endpoint.  Its page
and limit arrive unvalidated (plain defaults, no Query constraints), so
they are integers checked inside the handler (lines 472-480) before the
sort enumerations; the only filter is is_underrated == True. -/
def get_hidden_gems (b : Backend) (page limit : Int)
    (sort_by sort_order : String) :
    Except HTTPError PaginatedResponse × List BackendCall :=
  if page < 1 then
    (.error ⟨400, "Page must be >= 1"⟩, [])
  else if limit < 1 ∨ 100 < limit then
    (.error ⟨400, "Limit must be between 1 and 100"⟩, [])
  else if sort_by ∉ sortFields then
    (.error ⟨400, "Invalid sort_by field"⟩, [])
  else if sort_order ∉ sortOrders then
    (.error ⟨400, "Sort order must be asc or desc"⟩, [])
  else
    let pageN := page.toNat
    let limitN := limit.toNat
    let offset := offsetOf pageN limitN
    let uf : FilterExpr := .atom (.equalBool "is_underrated" true)
    let total_count := b.countFn (some uf)
    let pagination := buildPagination pageN limitN total_count sort_by sort_order
    let objs := b.fetchFn (some uf) limitN offset sort_by (sort_order == "asc")
    let data := objs.map formatRepoBrowse
    (.ok { success := true, data := data, pagination := some pagination },
     [.countCall (some uf), .fetchCall (some uf) limitN offset])

/- ## Concrete instances used to exercise the theorems -/

/-- A browse filter request with two present parameters. -/
def fpEx : FilterParams := { language := some "Python", min_stars := some 100 }

/-- The filter tree the compiler builds for fpEx. -/
def fEx : FilterExpr :=
  .and (.atom (.equalStr "language" "python")) (.atom (.greater_or_equal "stars" 100))

/-- The two atoms of fEx. -/
def atomLang : FilterAtom := .equalStr "language" "python"

/-- See atomLang. -/
def atomStars : FilterAtom := .greater_or_equal "stars" 100

/-- A valuation of the atoms. -/
def envEx : FilterAtom → Bool := fun _ => true

/-- A backend oracle with an empty index. -/
def exampleBackend : Backend := ⟨fun _ => 0, fun _ _ _ _ _ => []⟩

/-- A snippet evaluation that raises. -/
def exRaise : String → ExecOutcome := fun _ => .raised "attr missing"

/-- A snippet evaluation that runs but never writes the output slot. -/
def exExecEmpty : String → ExecOutcome := fun _ => .ran .emptySlot

/-- A response object holding three raw records. -/
def slotEx3 : SlotValue := .withObjects [({}, {}), ({}, {}), ({}, {})]

/-- A snippet evaluation returning slotEx3. -/
def exExec3 : String → ExecOutcome := fun _ => .ran slotEx3

/- ## Helper lemmas: Python strip -/

theorem head_dropWhile_not {α : Type} {p : α → Bool} :
    ∀ {l : List α} {a : α}, (l.dropWhile p).head? = some a → p a = false := by
  intro l
  induction l with
  | nil => intro a h; simp at h
  | cons b t ih =>
    intro a h
    rw [List.dropWhile_cons] at h
    by_cases hb : p b = true
    · exact ih (by simpa [hb] using h)
    · rw [if_neg hb] at h
      simp only [List.head?_cons, Option.some.injEq] at h
      subst h
      simpa using hb

theorem dropWhile_eq_self_of_head {α : Type} {p : α → Bool} {l : List α}
    (h : ∀ a, l.head? = some a → p a = false) : l.dropWhile p = l := by
  cases l with
  | nil => rfl
  | cons b t =>
    rw [List.dropWhile_cons]
    simp [h b rfl]

theorem getLast_eq_of_suffix {α : Type} {s l : List α} (h : s <:+ l) (hne : s ≠ []) :
    s.getLast? = l.getLast? := by
  obtain ⟨t, rfl⟩ := h
  exact (List.getLast?_append_of_ne_nil t hne).symm

theorem pyStripList_idem (l : List Char) : pyStripList (pyStripList l) = pyStripList l := by
  unfold pyStripList
  set A := l.dropWhile isWS with hA
  set B := A.reverse.dropWhile isWS with hB
  have hBdrop : B.dropWhile isWS = B := by
    apply dropWhile_eq_self_of_head
    intro a ha
    exact head_dropWhile_not (hB ▸ ha)
  have hBrev : B.reverse.dropWhile isWS = B.reverse := by
    apply dropWhile_eq_self_of_head
    intro a ha
    rw [List.head?_reverse] at ha
    rcases eq_or_ne B [] with hBe | hBe
    · rw [hBe] at ha; simp at ha
    · have h1 : B.getLast? = A.reverse.getLast? :=
        getLast_eq_of_suffix (hB ▸ List.dropWhile_suffix isWS) hBe
      rw [h1, List.getLast?_reverse] at ha
      exact head_dropWhile_not (hA ▸ ha)
  rw [hBrev, List.reverse_reverse, hBdrop]

theorem pyStrip_idem (s : String) : pyStrip (pyStrip s) = pyStrip s := by
  show (⟨pyStripList (pyStripList s.data)⟩ : String) = ⟨pyStripList s.data⟩
  rw [pyStripList_idem]

/- ## Helper lemmas: splitting and the delimited-field formatter -/

theorem splitCSVList_ne_nil : ∀ l : List Char, splitCSVList l ≠ [] := by
  intro l
  induction l with
  | nil => simp [splitCSVList]
  | cons c rest ih =>
    rw [splitCSVList]
    by_cases hc : c = ','
    · simp [hc]
    · simp only [hc, if_false]
      cases h : splitCSVList rest <;> simp

theorem pySplit_ne_nil (s : String) : pySplit s ≠ [] := by
  unfold pySplit
  simp [splitCSVList_ne_nil]

theorem filterMap_strip_eq (l : List String) :
    l.filterMap (fun t => if pyStrip t == "" then none else some (pyStrip t)) =
      (l.map pyStrip).filter (fun t => t != "") := by
  induction l with
  | nil => rfl
  | cons a t ih =>
    simp only [beq_iff_eq] at ih ⊢
    by_cases h : pyStrip a = ""
    · simp [List.filterMap_cons, List.filter_cons, h, ih]
    · simp [List.filterMap_cons, List.filter_cons, h, ih]

theorem formatDelimited_eq (s : String) :
    formatDelimited (some s) = ((pySplit s).map pyStrip).filter (fun t => t != "") := by
  rcases eq_or_ne s "" with rfl | h
  · decide
  · simp only [formatDelimited]
    rw [if_neg (by simpa using h)]
    exact filterMap_strip_eq _

/- ## Helper lemmas: AND composition -/

theorem evalF_foldl (env : FilterAtom → Bool) (rest : List FilterAtom) :
    ∀ e, evalF env (rest.foldl (fun acc c => FilterExpr.and acc (.atom c)) e) =
      (evalF env e && rest.all env) := by
  induction rest with
  | nil => intro e; simp
  | cons c t ih =>
    intro e
    rw [List.foldl_cons, ih]
    simp [evalF, Bool.and_assoc]

theorem atomsOf_foldl (rest : List FilterAtom) :
    ∀ e, atomsOf (rest.foldl (fun acc c => FilterExpr.and acc (.atom c)) e) =
      atomsOf e ++ rest := by
  induction rest with
  | nil => intro e; simp
  | cons c t ih =>
    intro e
    rw [List.foldl_cons, ih]
    simp [atomsOf]

theorem orFree_foldl (rest : List FilterAtom) :
    ∀ e, orFree (rest.foldl (fun acc c => FilterExpr.and acc (.atom c)) e) = orFree e := by
  induction rest with
  | nil => intro e; rfl
  | cons c t ih =>
    intro e
    rw [List.foldl_cons, ih]
    simp [orFree]

theorem evalOptF_combineList (env : FilterAtom → Bool) (l : List FilterAtom) :
    evalOptF env (combineList l) = l.all env := by
  cases l with
  | nil => rfl
  | cons a rest =>
    simp [combineList, evalOptF, evalF_foldl, evalF]

theorem combineList_eq_none (l : List FilterAtom) : combineList l = none ↔ l = [] := by
  cases l <;> simp [combineList]

theorem all_of_perm {α : Type} {p : α → Bool} {l₁ l₂ : List α} (h : l₁.Perm l₂) :
    l₁.all p = l₂.all p := by
  induction h with
  | nil => rfl
  | cons x _ ih => simp [List.all_cons, ih]
  | swap x y l => simp [List.all_cons, ← Bool.and_assoc, Bool.and_comm]
  | trans _ _ ih₁ ih₂ => exact ih₁.trans ih₂

/- ## Helper lemmas: filter segments -/

theorem strSeg_eq (o : Option String) (mk : String → FilterAtom) :
    strSeg o mk = if strPresent o then [mk (o.getD "")] else [] := by
  cases o with
  | none => simp [strSeg, strPresent]
  | some s =>
    rcases eq_or_ne s "" with rfl | h
    · simp [strSeg, strPresent]
    · simp [strSeg, strPresent, h]

theorem csvSeg_parse (o : Option String) (mk : List String → FilterAtom) :
    csvSeg (parseCSVLower o) mk = if strPresent o then [mk (csvTokens o)] else [] := by
  cases o with
  | none => simp [csvSeg, parseCSVLower, strPresent]
  | some s =>
    rcases eq_or_ne s "" with rfl | h
    · simp [csvSeg, parseCSVLower, strPresent]
    · have hp : parseCSVLower (some s) =
          some ((pySplit s).map (fun t => pyLower (pyStrip t))) := by
        simp [parseCSVLower, h]
      have hne : (pySplit s).map (fun t => pyLower (pyStrip t)) ≠ [] := by
        simp [pySplit_ne_nil s]
      rw [hp]
      simp [csvSeg, csvTokens, strPresent, h, hne]

theorem optSeg_length {α : Type} (o : Option α) (mk : α → FilterAtom) :
    (optSeg o mk).length = if o.isSome then 1 else 0 := by
  cases o <;> simp [optSeg]

theorem applyLimit_nil (limit : Option Nat) : applyLimit limit [] = [] := by
  cases limit <;> simp [applyLimit]

theorem applyLimit_some (l : Nat) (rs : List Repository) :
    applyLimit (some l) rs = if l ≠ 0 ∧ l < rs.length then rs.take l else rs := rfl

/- ## Claim C1 -/

/-- C1: for every browse request with page >= 1 and 1 <= per_page <= 100 and
every total count, the Pagination Engine returns offset = (page-1) * per_page,
total_pages = max 1 (ceiling of total_items / per_page), has_next exactly when
page < total_pages, has_previous exactly when page > 1, and next_page and
previous_page set to page+1 and page-1 exactly when the matching flag holds. -/
theorem C1_pagination_engine (page per_page total_items : Nat)
    (sort_by sort_order : String)
    (_h1 : 1 ≤ page) (h2 : 1 ≤ per_page) (h3 : per_page ≤ 100) :
    offsetOf page per_page = (page - 1) * per_page ∧
    (buildPagination page per_page total_items sort_by sort_order).total_pages =
      max 1 (ceilDiv total_items per_page) ∧
    ((buildPagination page per_page total_items sort_by sort_order).has_next = true ↔
      page < (buildPagination page per_page total_items sort_by sort_order).total_pages) ∧
    ((buildPagination page per_page total_items sort_by sort_order).has_previous = true ↔
      1 < page) ∧
    (buildPagination page per_page total_items sort_by sort_order).next_page =
      (if page < (buildPagination page per_page total_items sort_by sort_order).total_pages
       then some (page + 1) else none) ∧
    (buildPagination page per_page total_items sort_by sort_order).previous_page =
      (if 1 < page then some (page - 1) else none) := by
  have htp : (if 0 < total_items then ceilDiv total_items per_page else 1) =
      max 1 (ceilDiv total_items per_page) := by
    rcases Nat.eq_zero_or_pos total_items with h0 | h0
    · have hz : ceilDiv 0 per_page = 0 := by
        unfold ceilDiv
        exact Nat.div_eq_of_lt (by omega)
      subst h0
      simp [hz]
    · have hone : 1 ≤ ceilDiv total_items per_page := by
        unfold ceilDiv
        rw [Nat.one_le_div_iff (by omega)]
        omega
      rw [if_pos h0, Nat.max_eq_right hone]
  refine ⟨rfl, ?_, ?_, ?_, ?_, ?_⟩ <;>
    simp [buildPagination, htp, offsetOf]

theorem C1_pagination_engine_witness :
    offsetOf 2 20 = (2 - 1) * 20 ∧
    (buildPagination 2 20 100 "stars" "desc").total_pages = max 1 (ceilDiv 100 20) ∧
    ((buildPagination 2 20 100 "stars" "desc").has_next = true ↔
      2 < (buildPagination 2 20 100 "stars" "desc").total_pages) ∧
    ((buildPagination 2 20 100 "stars" "desc").has_previous = true ↔ 1 < 2) ∧
    (buildPagination 2 20 100 "stars" "desc").next_page =
      (if 2 < (buildPagination 2 20 100 "stars" "desc").total_pages
       then some (2 + 1) else none) ∧
    (buildPagination 2 20 100 "stars" "desc").previous_page =
      (if 1 < 2 then some (2 - 1) else none) :=
  C1_pagination_engine 2 20 100 "stars" "desc" (by decide) (by decide) (by decide)

/- ## Claim C2 -/

/-- C2: the Filter Compiler emits exactly one atomic comparison per present
parameter, with contains_any for the list-valued parameters, a wildcard like
on the lower-cased pattern for the containment parameters, and
equal / greater_or_equal / less_or_equal as typed for the rest; all atoms are
combined with AND only, and no filter is built when every parameter is
absent. -/
theorem C2_filter_compiler (fp : FilterParams) :
    filter_conditions fp = specFilterAtoms fp ∧
    (combined_filter fp = none ↔ presentCount fp = 0) ∧
    (filter_conditions fp).length = presentCount fp ∧
    ∀ f, combined_filter fp = some f →
      orFree f = true ∧ atomsOf f = filter_conditions fp := by
  have hspec : filter_conditions fp = specFilterAtoms fp := by
    unfold filter_conditions specFilterAtoms
    rw [strSeg_eq, strSeg_eq, strSeg_eq, strSeg_eq, csvSeg_parse, csvSeg_parse]
  have hlen : (filter_conditions fp).length = presentCount fp := by
    rw [hspec]
    unfold specFilterAtoms presentCount
    simp [List.length_append, optSeg_length, apply_ite List.length, Nat.add_assoc]
  refine ⟨hspec, ?_, hlen, ?_⟩
  · rw [combined_filter, combineList_eq_none, ← hlen]
    exact List.length_eq_zero.symm
  · intro f hf
    unfold combined_filter at hf
    cases hl : filter_conditions fp with
    | nil => rw [hl] at hf; simp [combineList] at hf
    | cons a rest =>
      rw [hl] at hf
      simp only [combineList, Option.some.injEq] at hf
      subst hf
      constructor
      · rw [orFree_foldl]; rfl
      · rw [atomsOf_foldl]; simp [atomsOf]

theorem C2_filter_compiler_witness :
    filter_conditions fpEx = specFilterAtoms fpEx ∧
    (filter_conditions fpEx).length = presentCount fpEx ∧
    orFree fEx = true ∧ atomsOf fEx = filter_conditions fpEx :=
  ⟨(C2_filter_compiler fpEx).1, (C2_filter_compiler fpEx).2.2.1,
   (C2_filter_compiler fpEx).2.2.2 fEx (by decide)⟩

/- ## Claim C9 -/

/-- C9: AND composition of the compiled atoms is order independent — any
permutation of the compiled atom list folds to a logically equivalent
predicate under every valuation of the atoms. -/
theorem C9_and_composition_order_independent (fp : FilterParams)
    (env : FilterAtom → Bool) (l : List FilterAtom)
    (h : l.Perm (filter_conditions fp)) :
    evalOptF env (combineList l) = evalOptF env (combined_filter fp) := by
  rw [combined_filter, evalOptF_combineList, evalOptF_combineList]
  exact all_of_perm h

theorem C9_witness :
    evalOptF envEx (combineList [atomStars, atomLang]) =
      evalOptF envEx (combined_filter fpEx) :=
  C9_and_composition_order_independent fpEx envEx [atomStars, atomLang] (by
    have h : filter_conditions fpEx = [atomLang, atomStars] := by decide
    rw [h]
    exact List.Perm.swap atomLang atomStars [])

/- ## Claim C3 -/

/-- C3 counterexample: a failure of the generation collaborator is not
returned as a structured failure result at the search boundary — it is
re-raised as an HTTPException 500 whose detail embeds only the failure
message, so the claim as stated is false for synthesis failures. -/
theorem C3_counterexample :
    search_repositories "find ml repos" (some 10) (.failed "boom")
      (fun _ => .ran .emptySlot) =
      .error ⟨500, "Failed to generate search code: boom"⟩ := rfl

/-- C3 (amended): an exception raised while evaluating the generated snippet
is caught at the search boundary and returned as a structured failure result
carrying the snippet text and the original query; a failure of the generation
collaborator is instead raised further as an HTTP 500 error whose detail
embeds the failure message, without the original user text attached. -/
theorem C3_failure_propagation (query : String) (limit : Option Nat)
    (msg code emsg : String) (ex : String → ExecOutcome)
    (hex : ex code = .raised emsg) :
    search_repositories query limit (.failed msg) ex =
      .error ⟨500, "Failed to generate search code: " ++ msg⟩ ∧
    search_repositories query limit (.made code) ex =
      .ok { success := false, query := query, results_count := 0, results := []
            error := some emsg, generated_code := some code } := by
  constructor
  · rfl
  · simp [search_repositories, weaviateSearch, hex]

theorem C3_failure_propagation_witness :
    search_repositories "q" (some 10) (.failed "down") exRaise =
      .error ⟨500, "Failed to generate search code: down"⟩ ∧
    search_repositories "q" (some 10) (.made "snippet") exRaise =
      .ok { success := false, query := "q", results_count := 0, results := []
            error := some "attr missing", generated_code := some "snippet" } :=
  C3_failure_propagation "q" (some 10) "down" "snippet" "attr missing" exRaise rfl

/- ## Claim C4 -/

/-- C4: both normalization paths present each delimited-string field as the
order-preserving sequence of non-empty stripped tokens of the comma-split
source string, and an absent or empty source field gives the empty
sequence. -/
theorem C4_delimited_fields (o : Option String) (props : Props) (meta : MetadataM) :
    (o = none ∨ o = some "" → formatDelimited o = []) ∧
    (∀ s, o = some s →
      formatDelimited o = ((pySplit s).map pyStrip).filter (fun t => t != "")) ∧
    (∀ t, t ∈ formatDelimited o → t ≠ "" ∧ pyStrip t = t) ∧
    (formatRepoSearch props meta).languages = formatDelimited props.languages ∧
    (formatRepoSearch props meta).topics = formatDelimited props.topics ∧
    (formatRepoBrowse props).languages = formatDelimited props.languages ∧
    (formatRepoBrowse props).topics = formatDelimited props.topics := by
  refine ⟨?_, ?_, ?_, rfl, rfl, rfl, rfl⟩
  · rintro (rfl | rfl)
    · rfl
    · rfl
  · rintro s rfl
    exact formatDelimited_eq s
  · intro t ht
    cases o with
    | none => simp [formatDelimited] at ht
    | some s =>
      rw [formatDelimited_eq] at ht
      rw [List.mem_filter] at ht
      obtain ⟨hmem, hne⟩ := ht
      obtain ⟨u, hu, rfl⟩ := List.mem_map.mp hmem
      exact ⟨by simpa using hne, pyStrip_idem u⟩

theorem C4_delimited_fields_witness :
    formatDelimited (some " py, ,js ") =
      ((pySplit " py, ,js ").map pyStrip).filter (fun t => t != "") :=
  (C4_delimited_fields (some " py, ,js ") {} {}).2.1 " py, ,js " rfl

/- ## Claim C5 -/

/-- C5: the search-path Result Normalizer attaches at most one piece of match
metadata — a distance rounded to 4 decimal digits when present, else a score
rounded to 4 decimal digits when present — and never both. -/
theorem C5_match_metadata (props : Props) (meta : MetadataM) :
    (formatRepoSearch props meta).distance = meta.distance.map round4 ∧
    (formatRepoSearch props meta).score =
      (match meta.distance with
       | some _ => none
       | none => meta.score.map round4) ∧
    ((formatRepoSearch props meta).distance.isSome &&
      (formatRepoSearch props meta).score.isSome) = false := by
  refine ⟨rfl, rfl, ?_⟩
  cases hd : meta.distance <;> simp [formatRepoSearch, hd]

/- ## Claim C6 -/

/-- C6: a browse request whose sort_by is outside its enumeration or whose
sort_order is outside asc/desc fails with a 400 request error before any
backend call is issued, on both the all-repositories path and the
hidden-gems path. -/
theorem C6_sort_validation (b : Backend) (page limit : Nat) (pageI limitI : Int)
    (sort_by sort_order : String) (fp : FilterParams)
    (h : sort_by ∉ sortFields ∨ sort_order ∉ sortOrders) :
    ((get_all_repositories b page limit sort_by sort_order fp).2 = [] ∧
      ∃ e, (get_all_repositories b page limit sort_by sort_order fp).1 = .error e ∧
        e.status = 400) ∧
    ((get_hidden_gems b pageI limitI sort_by sort_order).2 = [] ∧
      ∃ e, (get_hidden_gems b pageI limitI sort_by sort_order).1 = .error e ∧
        e.status = 400) := by
  constructor
  · unfold get_all_repositories
    by_cases h1 : sort_by ∈ sortFields
    · have h2 : sort_order ∉ sortOrders := by
        rcases h with h | h
        · exact absurd h1 h
        · exact h
      rw [if_neg (not_not_intro h1), if_pos h2]
      exact ⟨rfl, ⟨400, "Sort order must be asc or desc"⟩, rfl, rfl⟩
    · rw [if_pos h1]
      exact ⟨rfl, ⟨400, "Invalid sort_by field"⟩, rfl, rfl⟩
  · unfold get_hidden_gems
    by_cases hp : pageI < 1
    · rw [if_pos hp]
      exact ⟨rfl, ⟨400, "Page must be >= 1"⟩, rfl, rfl⟩
    · rw [if_neg hp]
      by_cases hl : limitI < 1 ∨ 100 < limitI
      · rw [if_pos hl]
        exact ⟨rfl, ⟨400, "Limit must be between 1 and 100"⟩, rfl, rfl⟩
      · rw [if_neg hl]
        by_cases h1 : sort_by ∈ sortFields
        · have h2 : sort_order ∉ sortOrders := by
            rcases h with h | h
            · exact absurd h1 h
            · exact h
          rw [if_neg (not_not_intro h1), if_pos h2]
          exact ⟨rfl, ⟨400, "Sort order must be asc or desc"⟩, rfl, rfl⟩
        · rw [if_pos h1]
          exact ⟨rfl, ⟨400, "Invalid sort_by field"⟩, rfl, rfl⟩

theorem C6_sort_validation_witness :
    ((get_all_repositories exampleBackend 1 20 "bogus" "desc" {}).2 = [] ∧
      ∃ e, (get_all_repositories exampleBackend 1 20 "bogus" "desc" {}).1 = .error e ∧
        e.status = 400) ∧
    ((get_hidden_gems exampleBackend 1 20 "bogus" "desc").2 = [] ∧
      ∃ e, (get_hidden_gems exampleBackend 1 20 "bogus" "desc").1 = .error e ∧
        e.status = 400) :=
  C6_sort_validation exampleBackend 1 20 1 20 "bogus" "desc" {} (Or.inl (by decide))

/- ## Claim C7 -/

/-- C7: a snippet evaluation that completes but leaves the output slot empty
or without the expected objects shape yields an empty result list, and the
search reports success with zero results rather than an error. -/
theorem C7_empty_slot (query : String) (limit : Option Nat) (code : String)
    (ex : String → ExecOutcome) (slot : SlotValue)
    (hex : ex code = .ran slot) (hslot : slot = .emptySlot ∨ slot = .lacksObjects) :
    execute_search_code slot = [] ∧
    search_repositories query limit (.made code) ex =
      .ok { success := true, query := query, results_count := 0, results := []
            generated_code := some code } := by
  have he : execute_search_code slot = [] := by
    rcases hslot with rfl | rfl <;> rfl
  refine ⟨he, ?_⟩
  simp [search_repositories, weaviateSearch, hex, he, applyLimit_nil]

theorem C7_empty_slot_witness :
    execute_search_code .emptySlot = [] ∧
    search_repositories "q" (some 10) (.made "snippet") exExecEmpty =
      .ok { success := true, query := "q", results_count := 0, results := []
            generated_code := some "snippet" } :=
  C7_empty_slot "q" (some 10) "snippet" exExecEmpty .emptySlot rfl (Or.inl rfl)

/- ## Claim C8 -/

/-- C8: every scalar field absent from the property bag defaults per type in
the canonical entity — strings and the optional license to the empty string,
integers to 0, booleans to false — on both the search-normalization and the
browse-formatting path. -/
theorem C8_scalar_defaults (props : Props) (meta : MetadataM) :
    (props.name = none →
      (formatRepoBrowse props).name = "" ∧ (formatRepoSearch props meta).name = "") ∧
    (props.full_name = none →
      (formatRepoBrowse props).full_name = "" ∧ (formatRepoSearch props meta).full_name = "") ∧
    (props.description = none →
      (formatRepoBrowse props).description = "" ∧
      (formatRepoSearch props meta).description = "") ∧
    (props.url = none →
      (formatRepoBrowse props).url = "" ∧ (formatRepoSearch props meta).url = "") ∧
    (props.homepage = none →
      (formatRepoBrowse props).homepage = "" ∧ (formatRepoSearch props meta).homepage = "") ∧
    (props.language = none →
      (formatRepoBrowse props).language = "" ∧ (formatRepoSearch props meta).language = "") ∧
    (props.stars = none →
      (formatRepoBrowse props).stars = 0 ∧ (formatRepoSearch props meta).stars = 0) ∧
    (props.forks = none →
      (formatRepoBrowse props).forks = 0 ∧ (formatRepoSearch props meta).forks = 0) ∧
    (props.open_issues = none →
      (formatRepoBrowse props).open_issues = 0 ∧
      (formatRepoSearch props meta).open_issues = 0) ∧
    (props.license = none →
      (formatRepoBrowse props).license = "" ∧ (formatRepoSearch props meta).license = "") ∧
    (props.has_issues = none →
      (formatRepoBrowse props).has_issues = false ∧
      (formatRepoSearch props meta).has_issues = false) ∧
    (props.has_wiki = none →
      (formatRepoBrowse props).has_wiki = false ∧
      (formatRepoSearch props meta).has_wiki = false) ∧
    (props.created_at = none →
      (formatRepoBrowse props).created_at = "" ∧
      (formatRepoSearch props meta).created_at = "") ∧
    (props.updated_at = none →
      (formatRepoBrowse props).updated_at = "" ∧
      (formatRepoSearch props meta).updated_at = "") := by
  refine ⟨?_, ?_, ?_, ?_, ?_, ?_, ?_, ?_, ?_, ?_, ?_, ?_, ?_, ?_⟩ <;>
    (intro h; simp [formatRepoBrowse, formatRepoSearch, pyOrStr, pyOrInt, pyOrBool, h])

theorem C8_scalar_defaults_witness :
    (formatRepoBrowse {}).name = "" ∧ (formatRepoSearch {} {}).name = "" :=
  (C8_scalar_defaults {} {}).1 rfl

/- ## Claim C10 -/

/-- C10: a successful search with limit L between 1 and 50 returns at most L
results — the first L backend results in their original order when more were
found — and results_count equals the length of the returned list. -/
theorem C10_limit_truncation (query code : String) (L : Nat)
    (ex : String → ExecOutcome) (slot : SlotValue)
    (h1 : 1 ≤ L) (h2 : L ≤ 50) (hex : ex code = .ran slot) :
    ∃ rs, search_repositories query (some L) (.made code) ex =
        .ok { success := true, query := query, results_count := rs.length, results := rs
              generated_code := some code } ∧
      rs.length ≤ L ∧
      (L < (execute_search_code slot).length → rs = (execute_search_code slot).take L) ∧
      (¬ L < (execute_search_code slot).length → rs = execute_search_code slot) := by
  refine ⟨applyLimit (some L) (execute_search_code slot), ?_, ?_, ?_, ?_⟩
  · simp [search_repositories, weaviateSearch, hex]
  · rw [applyLimit_some]
    by_cases hlt : L < (execute_search_code slot).length
    · rw [if_pos ⟨by omega, hlt⟩]
      simp [List.length_take]
    · rw [if_neg (fun hc => hlt hc.2)]
      omega
  · intro hlt
    rw [applyLimit_some, if_pos ⟨by omega, hlt⟩]
  · intro hlt
    rw [applyLimit_some, if_neg (fun hc => hlt hc.2)]

theorem C10_limit_truncation_witness :
    ∃ rs, search_repositories "q" (some 2) (.made "snippet") exExec3 =
        .ok { success := true, query := "q", results_count := rs.length, results := rs
              generated_code := some "snippet" } ∧
      rs.length ≤ 2 ∧
      (2 < (execute_search_code slotEx3).length → rs = (execute_search_code slotEx3).take 2) ∧
      (¬ 2 < (execute_search_code slotEx3).length → rs = execute_search_code slotEx3) :=
  C10_limit_truncation "q" "snippet" 2 exExec3 slotEx3 (by decide) (by decide) rfl

end FindMyRepo
